import Mathlib

/-!
Accept-loop servers: echo server and fixed-response HTTP stub

A shallow embedding of the two programs of the repository
(POSIX branch of the conditional compilation, where the invalid socket value
is `-1` and `CLOSE_SOCKET` is `close`):

* `006_accept_loop_code_1.c` : the echo server (namespace `Echo`);
* `source/sourcecode/part1.c` : the HTTP stub (namespace `Stub`).

Both programs only talk to the operating system.  The values that the system
calls return are supplied by an environment record; each `main` is a function
from that record to the list of system calls it issues (with their arguments
and results) together with its return value.  The endless accept loop is run
for one iteration per entry of the finite list of connection outcomes.

The loops are given twice: `loop_body` and `accept_loop` follow the runs in
which every call returns; `loop_body_sigpipe` and `accept_loop_sigpipe` add
the one outcome in which a call does not return, a `send` that raises
`SIGPIPE` and ends the process.
-/

set_option autoImplicit false

/-- One call made by a program, with its arguments and the value it returned.
`send_sigpipe` is a call of `send` that does not return: the peer has closed
the connection, `send` raises `SIGPIPE`, and the signal ends the process. -/
inductive Event where
  | socket (ret : Int)
  | setsockopt (fd : Int)
  | inet_pton (addr : String) (ret : Int)
  | inet_addr (addr : String) (ret : Nat)
  | bind (fd : Int) (port : Nat) (ret : Int)
  | listen (fd : Int) (backlog : Nat) (ret : Int)
  | accept (fd : Int) (ret : Int)
  | recv (fd : Int) (cap : Nat) (ret : Int)
  | printf (text : String)
  | printf_s (text : String) (precision : Int) (arg : List Nat)
  | send (fd : Int) (buf : List Nat) (len : Int) (ret : Int)
  | send_sigpipe (fd : Int) (buf : List Nat) (len : Int)
  | close (fd : Int)
  deriving DecidableEq, Repr

/-- What a run of `main` over a finite list of connection outcomes looks like:
the calls issued so far, and the value returned by `main` (`none` while the
program is still inside its accept loop). -/
structure Run where
  trace : List Event
  ret : Option Int
  deriving DecidableEq, Repr

/-- Outcomes that the environment produces during one iteration of the accept
loop.  `stack` is what the uninitialised receive buffer happens to contain,
`recv_data` the bytes that `recv` stores at the start of the buffer,
`send_ret` the value of a `send` that returns (`SigConn` adds the `send` that
does not). -/
structure Conn where
  accept_ret : Int
  stack : List Nat
  recv_ret : Int
  recv_data : List Nat
  send_ret : Int
  deriving DecidableEq, Repr

/-- Outcomes that the environment produces for a whole run: the values returned
by `socket`, by the address conversion (`inet_pton` in the echo server,
`inet_addr` in the HTTP stub), by `bind` and by `listen`, and the outcomes of
the loop iterations.  The programs are followed under every value of these
fields; the one value that its call cannot report, `INADDR_NONE` for the
conversion of the literal "127.0.0.1" by `inet_addr`, is excluded where a
statement depends on it. -/
structure Env where
  socket_ret : Int
  inet_pton_ret : Int
  inet_addr_ret : Nat
  bind_ret : Int
  listen_ret : Int
  conns : List Conn
  deriving DecidableEq, Repr

/-- A `char` array of `size` bytes declared without initialiser: it holds
whatever the stack held. -/
def buffer (size : Nat) (stack : List Nat) : List Nat :=
  (stack ++ List.replicate size 0).take size

/-- Effect of `recv` on its buffer: the received bytes overwrite the start of
the buffer, never more than the buffer holds. -/
def recv_store (buf data : List Nat) : List Nat :=
  (data ++ buf.drop data.length).take buf.length

/-- Bytes of a C string literal, without the terminator. -/
def bytes (s : String) : List Nat :=
  s.toList.map Char.toNat

/-- A `char` array initialised from a string literal: the bytes of the literal
followed by the terminating zero. -/
def char_array (s : String) : List Nat :=
  bytes s ++ [0]

/-- The failure value of `inet_addr`. -/
def INADDR_NONE : Nat := 0xFFFFFFFF

namespace Echo

/-- POSIX definition of the macro. -/
def INVALID_SOCKET : Int := -1

/-- Body of the `for (;;)` loop of `main`, lines 53-71.  The array `input` is
declared without initialiser, `sizeof(input)` is its length, and `recv` stores
the received bytes at its start. -/
def loop_body (listen_fd : Int) (c : Conn) : List Event :=
  let accepted_fd := c.accept_ret
  if accepted_fd = INVALID_SOCKET then
    [Event.accept listen_fd accepted_fd]
  else
    let input := buffer 128 c.stack
    let sizeof_input := input.length
    let input_len := c.recv_ret
    let input := recv_store input c.recv_data
    if input_len < 0 then
      [Event.accept listen_fd accepted_fd,
       Event.recv accepted_fd sizeof_input input_len,
       Event.close accepted_fd]
    else
      [Event.accept listen_fd accepted_fd,
       Event.recv accepted_fd sizeof_input input_len,
       Event.printf_s "Received message is:\n%.*s\n\n" input_len input,
       Event.send accepted_fd input input_len c.send_ret,
       Event.close accepted_fd]

/-- The `for (;;)` loop, run once per connection outcome. -/
def accept_loop (listen_fd : Int) : List Conn → List Event
  | [] => []
  | c :: cs => loop_body listen_fd c ++ accept_loop listen_fd cs

/-- The function `main` of `006_accept_loop_code_1.c`. -/
def main (e : Env) : Run :=
  let listen_fd := e.socket_ret
  if listen_fd = INVALID_SOCKET then
    ⟨[Event.socket listen_fd], some (-1)⟩
  else
    let addr := "127.0.0.1"
    let port := 8080
    if e.inet_pton_ret ≠ 1 then
      ⟨[Event.socket listen_fd, Event.setsockopt listen_fd,
        Event.inet_pton addr e.inet_pton_ret,
        Event.close listen_fd], some (-1)⟩
    else if e.bind_ret < 0 then
      ⟨[Event.socket listen_fd, Event.setsockopt listen_fd,
        Event.inet_pton addr e.inet_pton_ret,
        Event.bind listen_fd port e.bind_ret,
        Event.close listen_fd], some (-1)⟩
    else if e.listen_ret < 0 then
      ⟨[Event.socket listen_fd, Event.setsockopt listen_fd,
        Event.inet_pton addr e.inet_pton_ret,
        Event.bind listen_fd port e.bind_ret,
        Event.listen listen_fd 32 e.listen_ret,
        Event.close listen_fd], some (-1)⟩
    else
      ⟨[Event.socket listen_fd, Event.setsockopt listen_fd,
        Event.inet_pton addr e.inet_pton_ret,
        Event.bind listen_fd port e.bind_ret,
        Event.listen listen_fd 32 e.listen_ret]
        ++ accept_loop listen_fd e.conns, none⟩

end Echo

namespace Stub

/-- POSIX definition of the macro. -/
def INVALID_SOCKET_VALUE : Int := -1

/-- The array `response_buffer` of `main`, lines 66-71. -/
def response_buffer : List Nat :=
  char_array ("HTTP/1.0 200 OK\r\n"
    ++ "Content-Length: 13\r\n"
    ++ "Content-Type: text/plain\r\n"
    ++ "\r\n"
    ++ "Hello, world!")

/-- Body of the `while (1)` loop of `main`, lines 49-75.  The request is read
into `request_buffer` and not looked at; the length passed to `send` is
`sizeof(response_buffer)`. -/
def loop_body (listen_socket : Int) (c : Conn) : List Event :=
  let client_socket := c.accept_ret
  if client_socket = INVALID_SOCKET_VALUE then
    [Event.accept listen_socket client_socket,
     Event.printf "accept failed\n"]
  else
    let request_buffer := buffer 4096 c.stack
    let sizeof_request_buffer := request_buffer.length
    let len := c.recv_ret
    if len < 0 then
      [Event.accept listen_socket client_socket,
       Event.recv client_socket sizeof_request_buffer len,
       Event.printf "recv failed\n",
       Event.close client_socket]
    else
      let sizeof_response_buffer := response_buffer.length
      [Event.accept listen_socket client_socket,
       Event.recv client_socket sizeof_request_buffer len,
       Event.send client_socket response_buffer sizeof_response_buffer c.send_ret,
       Event.close client_socket]

/-- The `while (1)` loop, run once per connection outcome. -/
def accept_loop (listen_socket : Int) : List Conn → List Event
  | [] => []
  | c :: cs => loop_body listen_socket c ++ accept_loop listen_socket cs

/-- The function `main` of `part1.c`. -/
def main (e : Env) : Run :=
  let listen_socket := e.socket_ret
  if listen_socket = INVALID_SOCKET_VALUE then
    ⟨[Event.socket listen_socket, Event.printf "socket failed\n"], some (-1)⟩
  else
    let s_addr := e.inet_addr_ret
    if e.bind_ret ≠ 0 then
      ⟨[Event.socket listen_socket,
        Event.inet_addr "127.0.0.1" s_addr,
        Event.bind listen_socket 8080 e.bind_ret,
        Event.printf "bind failed\n"], some (-1)⟩
    else if e.listen_ret ≠ 0 then
      ⟨[Event.socket listen_socket,
        Event.inet_addr "127.0.0.1" s_addr,
        Event.bind listen_socket 8080 e.bind_ret,
        Event.listen listen_socket 32 e.listen_ret,
        Event.printf "listen failed\n"], some (-1)⟩
    else
      ⟨[Event.socket listen_socket,
        Event.inet_addr "127.0.0.1" s_addr,
        Event.bind listen_socket 8080 e.bind_ret,
        Event.listen listen_socket 32 e.listen_ret]
        ++ accept_loop listen_socket e.conns, none⟩

end Stub

/-! ## Observers on traces -/

/-- Recognises a call of `accept`. -/
def Event.is_accept : Event → Bool
  | Event.accept _ _ => true
  | _ => false

/-- Recognises a call of `recv`. -/
def Event.is_recv : Event → Bool
  | Event.recv _ _ _ => true
  | _ => false

/-- Recognises a call of `send`. -/
def Event.is_send : Event → Bool
  | Event.send _ _ _ _ => true
  | Event.send_sigpipe _ _ _ => true
  | _ => false

/-- Recognises a call of `CLOSE_SOCKET`. -/
def Event.is_close : Event → Bool
  | Event.close _ => true
  | _ => false

/-- Recognises a call of `accept` that returned a socket. -/
def Event.is_accepted : Event → Bool
  | Event.accept _ ret => decide (ret ≠ -1)
  | _ => false

/-- Number of connections accepted in a trace. -/
def accepted_count (t : List Event) : Nat :=
  t.countP Event.is_accepted

/-- Number of sockets closed in a trace. -/
def closed_count (t : List Event) : Nat :=
  t.countP Event.is_close

/-- The byte sequences handed to `send`, in order: for each call, the first
`len` bytes of its buffer. -/
def sent : List Event → List (List Nat)
  | [] => []
  | Event.send _ buf len _ :: t => buf.take len.toNat :: sent t
  | Event.send_sigpipe _ buf len :: t => buf.take len.toNat :: sent t
  | _ :: t => sent t

/-- Follows the accepted socket through a trace.  The state is the socket that
was accepted and not closed yet.  The result is `none` when `accept` is called
while a socket is still pending, or when `CLOSE_SOCKET` is called on anything
but the pending socket; otherwise it is the state at the end of the trace. -/
def track : Option Int → List Event → Option (Option Int)
  | s, [] => some s
  | s, Event.accept _ ret :: t =>
      if s.isSome then none else track (if ret = -1 then none else some ret) t
  | s, Event.close fd :: t =>
      if s = some fd then track none t else none
  | s, _ :: t => track s t

/-- Memory accesses of a call stay inside the array it is given. -/
def Event.in_bounds : Event → Prop
  | Event.send _ buf len _ => 0 ≤ len ∧ len ≤ buf.length
  | Event.send_sigpipe _ buf len => 0 ≤ len ∧ len ≤ buf.length
  | Event.printf_s _ precision arg => 0 ≤ precision ∧ precision ≤ arg.length
  | _ => True

/-- Number of bytes that the transport took over all calls of `send`. -/
def accepted_bytes : List Event → Int
  | [] => 0
  | Event.send _ _ _ ret :: t => max ret 0 + accepted_bytes t
  | _ :: t => accepted_bytes t

/-- Some call of `send` reported a failure. -/
def send_failed : List Event → Bool
  | [] => false
  | Event.send _ _ _ ret :: t => decide (ret < 0) || send_failed t
  | _ :: t => send_failed t

/-! ## Startup calls, the fixed response and concrete runs -/

/-- Calls issued by the echo server up to the loop when every startup step
succeeds. -/
def Echo.startup_calls (e : Env) : List Event :=
  [Event.socket e.socket_ret, Event.setsockopt e.socket_ret,
   Event.inet_pton "127.0.0.1" e.inet_pton_ret,
   Event.bind e.socket_ret 8080 e.bind_ret,
   Event.listen e.socket_ret 32 e.listen_ret]

/-- Calls issued by the HTTP stub up to the loop when every checked startup
step succeeds. -/
def Stub.startup_calls (e : Env) : List Event :=
  [Event.socket e.socket_ret,
   Event.inet_addr "127.0.0.1" e.inet_addr_ret,
   Event.bind e.socket_ret 8080 e.bind_ret,
   Event.listen e.socket_ret 32 e.listen_ret]

/-- Calls that `n` failed accepts leave in the trace of the HTTP stub. -/
def Stub.failed_accepts (listen_socket : Int) : Nat → List Event
  | 0 => []
  | n + 1 =>
      Event.accept listen_socket (-1) :: Event.printf "accept failed\n"
        :: Stub.failed_accepts listen_socket n

/-- A run with three failed accepts before a connection that sends "ping". -/
def three_failures_env : Env :=
  { socket_ret := 3, inet_pton_ret := 1, inet_addr_ret := 0x0100007F,
    bind_ret := 0, listen_ret := 0,
    conns := [⟨-1, [], 0, [], 0⟩, ⟨-1, [], 0, [], 0⟩, ⟨-1, [], 0, [], 0⟩,
              ⟨4, [], 4, [112, 105, 110, 103], 4⟩] }

/-- A run whose first connection fails in `recv` and whose second connection
sends "ping". -/
def recv_failure_env : Env :=
  { socket_ret := 3, inet_pton_ret := 1, inet_addr_ret := 0x0100007F,
    bind_ret := 0, listen_ret := 0,
    conns := [⟨4, [], -1, [], 0⟩, ⟨5, [], 4, [112, 105, 110, 103], 4⟩] }

/-- A connection on which "ping" is received and `send` takes 2 of the 4
bytes. -/
def short_send_conn : Conn :=
  ⟨4, [], 4, [112, 105, 110, 103], 2⟩

/-- A connection on which "ping" is received and `send` takes 40 of the 79
bytes of the HTTP stub. -/
def short_send_conn_stub : Conn :=
  ⟨4, [], 4, [112, 105, 110, 103], 40⟩

/-- The fixed response as the specification lists it (section 6): status line,
two header lines, blank line, payload; 78 bytes. -/
def spec_fixed_response : List Nat :=
  bytes "HTTP/1.0 200 OK\r\nContent-Length: 13\r\nContent-Type: text/plain\r\n\r\nHello, world!"

/-- Tells whether the first list is the beginning of the second. -/
def starts_with : List Nat → List Nat → Bool
  | [], _ => true
  | _ :: _, [] => false
  | p :: ps, x :: xs => p == x && starts_with ps xs

/-- What follows the first occurrence of `pat` in a message. -/
def after (pat : List Nat) : List Nat → Option (List Nat)
  | [] => if pat = [] then some [] else none
  | x :: xs =>
      if starts_with pat (x :: xs) then some ((x :: xs).drop pat.length)
      else after pat xs

/-- Value of the decimal digits at the start of a byte sequence. -/
def read_decimal : List Nat → Nat → Nat
  | [], acc => acc
  | d :: t, acc =>
      if 48 ≤ d ∧ d ≤ 57 then read_decimal t (acc * 10 + (d - 48)) else acc

/-- Body of an HTTP message: the bytes after the first blank line. -/
def body_after_blank_line (msg : List Nat) : Option (List Nat) :=
  after [13, 10, 13, 10] msg

/-- Length that the `Content-Length` header of a message declares. -/
def declared_content_length (msg : List Nat) : Option Nat :=
  (after (bytes "Content-Length: ") msg).map (fun t => read_decimal t 0)

/-- A connection on which the request of scenario 3 is received. -/
def get_request_conn : Conn :=
  ⟨4, [], 18, bytes "GET / HTTP/1.1\r\n\r\n", 79⟩

/-- A connection on which the empty request is received. -/
def empty_request_conn : Conn :=
  ⟨4, [], 0, [], 79⟩

/-- A run in which `bind` fails (the port is taken). -/
def bind_failure_env : Env :=
  { socket_ret := 3, inet_pton_ret := 1, inet_addr_ret := 0x0100007F,
    bind_ret := -1, listen_ret := 0, conns := [⟨4, [], 0, [], 0⟩] }

/-- A run in which `listen` fails. -/
def listen_failure_env : Env :=
  { socket_ret := 3, inet_pton_ret := 1, inet_addr_ret := 0x0100007F,
    bind_ret := 0, listen_ret := -1, conns := [⟨4, [], 0, [], 0⟩] }

/-- Some startup step of the HTTP stub failed: `socket` returned the invalid
socket value, `inet_addr` returned `INADDR_NONE`, or `bind` or `listen`
returned a value other than zero. -/
def Stub.startup_step_failed (e : Env) : Prop :=
  e.socket_ret = -1 ∨ e.inet_addr_ret = INADDR_NONE ∨ e.bind_ret ≠ 0 ∨ e.listen_ret ≠ 0

/-- Some startup step of the echo server failed: `socket` returned the invalid
socket value, `inet_pton` returned a value other than 1, or `bind` or `listen`
returned a negative value. -/
def Echo.startup_step_failed (e : Env) : Prop :=
  e.socket_ret = -1 ∨ e.inet_pton_ret ≠ 1 ∨ e.bind_ret < 0 ∨ e.listen_ret < 0

/-! ## The outcome of `send` that does not return

Both programs call `send` with flags 0 and leave the disposition of `SIGPIPE`
at its default.  When the peer has closed the connection, `send` raises
`SIGPIPE` and the process ends inside the call.  The definitions below follow
the loops under that outcome too; with it absent they are the loops above. -/

/-- Outcomes of one iteration of the accept loop, with the outcome of `send`
that does not return: `send_sigpipe` tells that `send`, if it is called,
raises `SIGPIPE`. -/
structure SigConn extends Conn where
  send_sigpipe : Bool
  deriving DecidableEq, Repr

/-- Calls issued by a piece of a run, and whether the process is still running
after them. -/
structure Step where
  calls : List Event
  alive : Bool
  deriving DecidableEq, Repr

/-- Body of the `for (;;)` loop of the echo server, lines 53-71, with the
`send` that raises `SIGPIPE`: the process ends in line 68, before the close of
line 70. -/
def Echo.loop_body_sigpipe (listen_fd : Int) (c : SigConn) : Step :=
  let accepted_fd := c.accept_ret
  if accepted_fd = Echo.INVALID_SOCKET then
    ⟨[Event.accept listen_fd accepted_fd], true⟩
  else
    let input := buffer 128 c.stack
    let sizeof_input := input.length
    let input_len := c.recv_ret
    let input := recv_store input c.recv_data
    if input_len < 0 then
      ⟨[Event.accept listen_fd accepted_fd,
        Event.recv accepted_fd sizeof_input input_len,
        Event.close accepted_fd], true⟩
    else if c.send_sigpipe then
      ⟨[Event.accept listen_fd accepted_fd,
        Event.recv accepted_fd sizeof_input input_len,
        Event.printf_s "Received message is:\n%.*s\n\n" input_len input,
        Event.send_sigpipe accepted_fd input input_len], false⟩
    else
      ⟨[Event.accept listen_fd accepted_fd,
        Event.recv accepted_fd sizeof_input input_len,
        Event.printf_s "Received message is:\n%.*s\n\n" input_len input,
        Event.send accepted_fd input input_len c.send_ret,
        Event.close accepted_fd], true⟩

/-- The `for (;;)` loop of the echo server, run once per connection outcome
until the process ends. -/
def Echo.accept_loop_sigpipe (listen_fd : Int) : List SigConn → Step
  | [] => ⟨[], true⟩
  | c :: cs =>
      let s := Echo.loop_body_sigpipe listen_fd c
      if s.alive then
        let r := Echo.accept_loop_sigpipe listen_fd cs
        ⟨s.calls ++ r.calls, r.alive⟩
      else s

/-- Body of the `while (1)` loop of the HTTP stub, lines 49-75, with the
`send` that raises `SIGPIPE`: the process ends in line 72, before the close of
line 74. -/
def Stub.loop_body_sigpipe (listen_socket : Int) (c : SigConn) : Step :=
  let client_socket := c.accept_ret
  if client_socket = Stub.INVALID_SOCKET_VALUE then
    ⟨[Event.accept listen_socket client_socket,
      Event.printf "accept failed\n"], true⟩
  else
    let request_buffer := buffer 4096 c.stack
    let sizeof_request_buffer := request_buffer.length
    let len := c.recv_ret
    if len < 0 then
      ⟨[Event.accept listen_socket client_socket,
        Event.recv client_socket sizeof_request_buffer len,
        Event.printf "recv failed\n",
        Event.close client_socket], true⟩
    else
      let sizeof_response_buffer := Stub.response_buffer.length
      if c.send_sigpipe then
        ⟨[Event.accept listen_socket client_socket,
          Event.recv client_socket sizeof_request_buffer len,
          Event.send_sigpipe client_socket Stub.response_buffer sizeof_response_buffer],
         false⟩
      else
        ⟨[Event.accept listen_socket client_socket,
          Event.recv client_socket sizeof_request_buffer len,
          Event.send client_socket Stub.response_buffer sizeof_response_buffer c.send_ret,
          Event.close client_socket], true⟩

/-- The `while (1)` loop of the HTTP stub, run once per connection outcome
until the process ends. -/
def Stub.accept_loop_sigpipe (listen_socket : Int) : List SigConn → Step
  | [] => ⟨[], true⟩
  | c :: cs =>
      let s := Stub.loop_body_sigpipe listen_socket c
      if s.alive then
        let r := Stub.accept_loop_sigpipe listen_socket cs
        ⟨s.calls ++ r.calls, r.alive⟩
      else s

/-- Two connections that send "ping": the first is served, the peer of the
second has closed when `send` is called. -/
def sigpipe_run : List SigConn :=
  [⟨⟨4, [], 4, [112, 105, 110, 103], 4⟩, false⟩,
   ⟨⟨5, [], 4, [112, 105, 110, 103], 0⟩, true⟩]

/-- Two connections that send "ping" and are both served. -/
def served_run : List SigConn :=
  [⟨⟨4, [], 4, [112, 105, 110, 103], 4⟩, false⟩,
   ⟨⟨5, [], 4, [112, 105, 110, 103], 4⟩, false⟩]

/-! ## Basic facts -/

theorem buffer_length (size : Nat) (stack : List Nat) :
    (buffer size stack).length = size := by
  simp [buffer]

theorem recv_store_length (buf data : List Nat) :
    (recv_store buf data).length = buf.length := by
  simp [recv_store]
  omega

theorem recv_store_take (buf data : List Nat) (h : data.length ≤ buf.length) :
    (recv_store buf data).take data.length = data := by
  simp [recv_store, List.take_take, h, List.take_append_of_le_length]

theorem Echo.echo_accept_loop_append (fd : Int) (xs ys : List Conn) :
    Echo.accept_loop fd (xs ++ ys) = Echo.accept_loop fd xs ++ Echo.accept_loop fd ys := by
  induction xs with
  | nil => rfl
  | cons c cs ih => simp [Echo.accept_loop, ih]

theorem Stub.stub_accept_loop_append (fd : Int) (xs ys : List Conn) :
    Stub.accept_loop fd (xs ++ ys) = Stub.accept_loop fd xs ++ Stub.accept_loop fd ys := by
  induction xs with
  | nil => rfl
  | cons c cs ih => simp [Stub.accept_loop, ih]

/-- C1. Echo server: when `recv` stores the byte sequence `r` (0 to 128 bytes)
in the buffer and returns its length, the connection is handled by one `recv`,
the print, one `send` and one close; the buffer and length handed to `send`
are `r` exactly (the first `|r|` bytes of the buffer are `r`, the length is
`|r|`), also for the empty sequence, which is sent like any other. -/
theorem Echo.echo_sends_received_bytes (listen_fd : Int) (c : Conn) (r : List Nat)
    (hacc : c.accept_ret ≠ Echo.INVALID_SOCKET)
    (hdata : c.recv_data = r) (hret : c.recv_ret = r.length) (hlen : r.length ≤ 128) :
    Echo.loop_body listen_fd c =
      [Event.accept listen_fd c.accept_ret,
       Event.recv c.accept_ret 128 r.length,
       Event.printf_s "Received message is:\n%.*s\n\n" r.length
         (recv_store (buffer 128 c.stack) r),
       Event.send c.accept_ret (recv_store (buffer 128 c.stack) r) r.length c.send_ret,
       Event.close c.accept_ret]
    ∧ (recv_store (buffer 128 c.stack) r).take r.length = r
    ∧ sent (Echo.loop_body listen_fd c) = [r] := by
  have htake : (recv_store (buffer 128 c.stack) r).take r.length = r :=
    recv_store_take _ _ (by simpa [buffer_length] using hlen)
  have hnn : ¬ ((r.length : Int) < 0) := by omega
  subst hdata
  have hbody : Echo.loop_body listen_fd c =
      [Event.accept listen_fd c.accept_ret,
       Event.recv c.accept_ret 128 c.recv_data.length,
       Event.printf_s "Received message is:\n%.*s\n\n" c.recv_data.length
         (recv_store (buffer 128 c.stack) c.recv_data),
       Event.send c.accept_ret (recv_store (buffer 128 c.stack) c.recv_data)
         c.recv_data.length c.send_ret,
       Event.close c.accept_ret] := by
    simp only [Echo.loop_body, if_neg hacc, hret, if_neg hnn, buffer_length]
  refine ⟨hbody, htake, ?_⟩
  rw [hbody]
  simp [sent, htake]

/-- Witness for C1, the request "ping". -/
theorem Echo.echo_sends_received_bytes_witness :
    sent (Echo.loop_body 3 ⟨4, [], 4, [112, 105, 110, 103], 4⟩) = [[112, 105, 110, 103]] :=
  (Echo.echo_sends_received_bytes 3 ⟨4, [], 4, [112, 105, 110, 103], 4⟩ [112, 105, 110, 103]
    (by decide) rfl rfl (by decide)).2.2

/-- The empty request of the echo server: `send` is called with length 0 and
the connection is closed on the ordinary path. -/
theorem Echo.echo_empty_request (listen_fd : Int) (stack : List Nat) :
    Echo.loop_body listen_fd ⟨4, stack, 0, [], 0⟩ =
      [Event.accept listen_fd 4,
       Event.recv 4 128 0,
       Event.printf_s "Received message is:\n%.*s\n\n" 0 (buffer 128 stack),
       Event.send 4 (buffer 128 stack) 0 0,
       Event.close 4] := by
  have h : recv_store (buffer 128 stack) [] = buffer 128 stack := by
    simp [recv_store, buffer_length]
  simp [Echo.loop_body, Echo.INVALID_SOCKET, h, buffer_length]

/-! ## Startup and loop structure -/

theorem Echo.echo_main_of_startup_ok (e : Env) (h1 : e.socket_ret ≠ -1)
    (h2 : e.inet_pton_ret = 1) (h3 : 0 ≤ e.bind_ret) (h4 : 0 ≤ e.listen_ret) :
    Echo.main e = ⟨Echo.startup_calls e ++ Echo.accept_loop e.socket_ret e.conns, none⟩ := by
  have h3n : ¬ e.bind_ret < 0 := by omega
  have h4n : ¬ e.listen_ret < 0 := by omega
  simp [Echo.main, Echo.INVALID_SOCKET, Echo.startup_calls, h1, h2, h3n, h4n]

theorem Stub.stub_main_of_startup_ok (e : Env) (h1 : e.socket_ret ≠ -1)
    (h3 : e.bind_ret = 0) (h4 : e.listen_ret = 0) :
    Stub.main e = ⟨Stub.startup_calls e ++ Stub.accept_loop e.socket_ret e.conns, none⟩ := by
  simp [Stub.main, Stub.INVALID_SOCKET_VALUE, Stub.startup_calls, h1, h3, h4]

theorem Echo.echo_loop_body_of_accept_failed (fd : Int) (c : Conn) (h : c.accept_ret = -1) :
    Echo.loop_body fd c = [Event.accept fd (-1)] := by
  simp [Echo.loop_body, Echo.INVALID_SOCKET, h]

theorem Echo.echo_loop_body_of_recv_failed (fd : Int) (c : Conn) (h : c.accept_ret ≠ -1)
    (hr : c.recv_ret < 0) :
    Echo.loop_body fd c =
      [Event.accept fd c.accept_ret, Event.recv c.accept_ret 128 c.recv_ret,
       Event.close c.accept_ret] := by
  simp [Echo.loop_body, Echo.INVALID_SOCKET, h, hr, buffer_length]

theorem Echo.echo_loop_body_of_recv_ok (fd : Int) (c : Conn) (h : c.accept_ret ≠ -1)
    (hr : 0 ≤ c.recv_ret) :
    Echo.loop_body fd c =
      [Event.accept fd c.accept_ret, Event.recv c.accept_ret 128 c.recv_ret,
       Event.printf_s "Received message is:\n%.*s\n\n" c.recv_ret
         (recv_store (buffer 128 c.stack) c.recv_data),
       Event.send c.accept_ret (recv_store (buffer 128 c.stack) c.recv_data)
         c.recv_ret c.send_ret,
       Event.close c.accept_ret] := by
  have hr2 : ¬ c.recv_ret < 0 := by omega
  simp [Echo.loop_body, Echo.INVALID_SOCKET, h, hr2, buffer_length]

theorem Stub.response_buffer_length : Stub.response_buffer.length = 79 := by
  decide

theorem Stub.stub_loop_body_of_accept_failed (fd : Int) (c : Conn) (h : c.accept_ret = -1) :
    Stub.loop_body fd c = [Event.accept fd (-1), Event.printf "accept failed\n"] := by
  simp [Stub.loop_body, Stub.INVALID_SOCKET_VALUE, h]

theorem Stub.stub_loop_body_of_recv_failed (fd : Int) (c : Conn) (h : c.accept_ret ≠ -1)
    (hr : c.recv_ret < 0) :
    Stub.loop_body fd c =
      [Event.accept fd c.accept_ret, Event.recv c.accept_ret 4096 c.recv_ret,
       Event.printf "recv failed\n", Event.close c.accept_ret] := by
  simp [Stub.loop_body, Stub.INVALID_SOCKET_VALUE, h, hr, buffer_length]

theorem Stub.stub_loop_body_of_recv_ok (fd : Int) (c : Conn) (h : c.accept_ret ≠ -1)
    (hr : 0 ≤ c.recv_ret) :
    Stub.loop_body fd c =
      [Event.accept fd c.accept_ret, Event.recv c.accept_ret 4096 c.recv_ret,
       Event.send c.accept_ret Stub.response_buffer 79 c.send_ret,
       Event.close c.accept_ret] := by
  have hr2 : ¬ c.recv_ret < 0 := by omega
  simp [Stub.loop_body, Stub.INVALID_SOCKET_VALUE, h, hr2, buffer_length,
    Stub.response_buffer_length]

theorem Echo.echo_accept_loop_failed (fd : Int) (fs : List Conn)
    (hfs : ∀ f ∈ fs, f.accept_ret = -1) :
    Echo.accept_loop fd fs = List.replicate fs.length (Event.accept fd (-1)) := by
  induction fs with
  | nil => rfl
  | cons f fs ih =>
    have hf : f.accept_ret = -1 := hfs f (List.mem_cons_self _ _)
    have ht : ∀ g ∈ fs, g.accept_ret = -1 := fun g hg => hfs g (List.mem_cons_of_mem _ hg)
    simp [Echo.accept_loop, Echo.echo_loop_body_of_accept_failed fd f hf, ih ht, List.replicate_succ]

theorem Stub.stub_accept_loop_failed (fd : Int) (fs : List Conn)
    (hfs : ∀ f ∈ fs, f.accept_ret = -1) :
    Stub.accept_loop fd fs = Stub.failed_accepts fd fs.length := by
  induction fs with
  | nil => rfl
  | cons f fs ih =>
    have hf : f.accept_ret = -1 := hfs f (List.mem_cons_self _ _)
    have ht : ∀ g ∈ fs, g.accept_ret = -1 := fun g hg => hfs g (List.mem_cons_of_mem _ hg)
    simp [Stub.accept_loop, Stub.stub_loop_body_of_accept_failed fd f hf, ih ht, Stub.failed_accepts]

theorem Stub.failed_accepts_mem (fd : Int) (n : Nat) (ev : Event)
    (h : ev ∈ Stub.failed_accepts fd n) :
    ev = Event.accept fd (-1) ∨ ev = Event.printf "accept failed\n" := by
  induction n with
  | zero => simp [Stub.failed_accepts] at h
  | succ n ih =>
    simp only [Stub.failed_accepts, List.mem_cons] at h
    rcases h with h | h | h
    · exact Or.inl h
    · exact Or.inr h
    · exact ih h

theorem Echo.echo_track_loop_body (fd : Int) (c : Conn) (t : List Event) :
    track none (Echo.loop_body fd c ++ t) = track none t := by
  by_cases h : c.accept_ret = -1
  · simp [Echo.echo_loop_body_of_accept_failed fd c h, track]
  · by_cases hr : c.recv_ret < 0
    · simp [Echo.echo_loop_body_of_recv_failed fd c h hr, track, h]
    · simp [Echo.echo_loop_body_of_recv_ok fd c h (by omega), track, h]

theorem Stub.stub_track_loop_body (fd : Int) (c : Conn) (t : List Event) :
    track none (Stub.loop_body fd c ++ t) = track none t := by
  by_cases h : c.accept_ret = -1
  · simp [Stub.stub_loop_body_of_accept_failed fd c h, track]
  · by_cases hr : c.recv_ret < 0
    · simp [Stub.stub_loop_body_of_recv_failed fd c h hr, track, h]
    · simp [Stub.stub_loop_body_of_recv_ok fd c h (by omega), track, h]

theorem Echo.echo_counts_loop_body (fd : Int) (c : Conn) :
    accepted_count (Echo.loop_body fd c) = closed_count (Echo.loop_body fd c) := by
  by_cases h : c.accept_ret = -1
  · simp [Echo.echo_loop_body_of_accept_failed fd c h, accepted_count, closed_count,
      Event.is_accepted, Event.is_close]
  · by_cases hr : c.recv_ret < 0
    · simp [Echo.echo_loop_body_of_recv_failed fd c h hr, accepted_count, closed_count,
        Event.is_accepted, Event.is_close, h]
    · simp [Echo.echo_loop_body_of_recv_ok fd c h (by omega), accepted_count, closed_count,
        Event.is_accepted, Event.is_close, h]

theorem Stub.stub_counts_loop_body (fd : Int) (c : Conn) :
    accepted_count (Stub.loop_body fd c) = closed_count (Stub.loop_body fd c) := by
  by_cases h : c.accept_ret = -1
  · simp [Stub.stub_loop_body_of_accept_failed fd c h, accepted_count, closed_count,
      Event.is_accepted, Event.is_close]
  · by_cases hr : c.recv_ret < 0
    · simp [Stub.stub_loop_body_of_recv_failed fd c h hr, accepted_count, closed_count,
        Event.is_accepted, Event.is_close, h]
    · simp [Stub.stub_loop_body_of_recv_ok fd c h (by omega), accepted_count, closed_count,
        Event.is_accepted, Event.is_close, h]

/-! ## Claims about the accept loop -/

/-- Runs in which every `send` returns: each iteration starts with its only
`accept`; its calls of `CLOSE_SOCKET` are exactly one call on the accepted
socket when `accept` succeeded and none when it failed; following the accepted
socket through the whole trace never meets an `accept` while a socket is
pending nor a close of anything but the pending socket, and ends with nothing
pending; the number of accepted connections equals the number of closed
ones. -/
theorem returning_sends_closed_exactly_once (fd : Int) (cs : List Conn) (c : Conn) :
    (Echo.accept_loop fd (c :: cs) = Echo.loop_body fd c ++ Echo.accept_loop fd cs
      ∧ (Echo.loop_body fd c).filter Event.is_accept = [Event.accept fd c.accept_ret]
      ∧ (Echo.loop_body fd c).head? = some (Event.accept fd c.accept_ret)
      ∧ (Echo.loop_body fd c).filter Event.is_close
          = (if c.accept_ret = -1 then [] else [Event.close c.accept_ret])
      ∧ track none (Echo.accept_loop fd cs) = some none
      ∧ accepted_count (Echo.accept_loop fd cs) = closed_count (Echo.accept_loop fd cs))
    ∧ (Stub.accept_loop fd (c :: cs) = Stub.loop_body fd c ++ Stub.accept_loop fd cs
      ∧ (Stub.loop_body fd c).filter Event.is_accept = [Event.accept fd c.accept_ret]
      ∧ (Stub.loop_body fd c).head? = some (Event.accept fd c.accept_ret)
      ∧ (Stub.loop_body fd c).filter Event.is_close
          = (if c.accept_ret = -1 then [] else [Event.close c.accept_ret])
      ∧ track none (Stub.accept_loop fd cs) = some none
      ∧ accepted_count (Stub.accept_loop fd cs) = closed_count (Stub.accept_loop fd cs)) := by
  refine ⟨⟨rfl, ?_, ?_, ?_, ?_, ?_⟩, ⟨rfl, ?_, ?_, ?_, ?_, ?_⟩⟩
  · by_cases h : c.accept_ret = -1
    · simp [Echo.echo_loop_body_of_accept_failed fd c h, Event.is_accept, h]
    · by_cases hr : c.recv_ret < 0
      · simp [Echo.echo_loop_body_of_recv_failed fd c h hr, Event.is_accept]
      · simp [Echo.echo_loop_body_of_recv_ok fd c h (by omega), Event.is_accept]
  · by_cases h : c.accept_ret = -1
    · simp [Echo.echo_loop_body_of_accept_failed fd c h, h]
    · by_cases hr : c.recv_ret < 0
      · simp [Echo.echo_loop_body_of_recv_failed fd c h hr]
      · simp [Echo.echo_loop_body_of_recv_ok fd c h (by omega)]
  · by_cases h : c.accept_ret = -1
    · simp [Echo.echo_loop_body_of_accept_failed fd c h, Event.is_close, h]
    · by_cases hr : c.recv_ret < 0
      · simp [Echo.echo_loop_body_of_recv_failed fd c h hr, Event.is_close, h]
      · simp [Echo.echo_loop_body_of_recv_ok fd c h (by omega), Event.is_close, h]
  · induction cs with
    | nil => rfl
    | cons d ds ih => simpa [Echo.accept_loop, Echo.echo_track_loop_body] using ih
  · induction cs with
    | nil => rfl
    | cons d ds ih =>
      have hd := Echo.echo_counts_loop_body fd d
      simp only [accepted_count, closed_count] at hd ih ⊢
      simp [Echo.accept_loop, List.countP_append, hd, ih]
  · by_cases h : c.accept_ret = -1
    · simp [Stub.stub_loop_body_of_accept_failed fd c h, Event.is_accept, h]
    · by_cases hr : c.recv_ret < 0
      · simp [Stub.stub_loop_body_of_recv_failed fd c h hr, Event.is_accept]
      · simp [Stub.stub_loop_body_of_recv_ok fd c h (by omega), Event.is_accept]
  · by_cases h : c.accept_ret = -1
    · simp [Stub.stub_loop_body_of_accept_failed fd c h, h]
    · by_cases hr : c.recv_ret < 0
      · simp [Stub.stub_loop_body_of_recv_failed fd c h hr]
      · simp [Stub.stub_loop_body_of_recv_ok fd c h (by omega)]
  · by_cases h : c.accept_ret = -1
    · simp [Stub.stub_loop_body_of_accept_failed fd c h, Event.is_close, h]
    · by_cases hr : c.recv_ret < 0
      · simp [Stub.stub_loop_body_of_recv_failed fd c h hr, Event.is_close, h]
      · simp [Stub.stub_loop_body_of_recv_ok fd c h (by omega), Event.is_close, h]
  · induction cs with
    | nil => rfl
    | cons d ds ih => simpa [Stub.accept_loop, Stub.stub_track_loop_body] using ih
  · induction cs with
    | nil => rfl
    | cons d ds ih =>
      have hd := Stub.stub_counts_loop_body fd d
      simp only [accepted_count, closed_count] at hd ih ⊢
      simp [Stub.accept_loop, List.countP_append, hd, ih]

theorem Echo.echo_sigpipe_of_kill (fd : Int) (c : SigConn) (h : c.accept_ret ≠ -1)
    (hr : 0 ≤ c.recv_ret) (hk : c.send_sigpipe = true) :
    Echo.loop_body_sigpipe fd c =
      ⟨[Event.accept fd c.accept_ret, Event.recv c.accept_ret 128 c.recv_ret,
        Event.printf_s "Received message is:\n%.*s\n\n" c.recv_ret
          (recv_store (buffer 128 c.stack) c.recv_data),
        Event.send_sigpipe c.accept_ret (recv_store (buffer 128 c.stack) c.recv_data)
          c.recv_ret], false⟩ := by
  have hr2 : ¬ c.recv_ret < 0 := by omega
  simp [Echo.loop_body_sigpipe, Echo.INVALID_SOCKET, h, hr2, hk, buffer_length]

theorem Echo.echo_sigpipe_of_no_kill (fd : Int) (c : SigConn)
    (h : ¬ (c.accept_ret ≠ -1 ∧ 0 ≤ c.recv_ret ∧ c.send_sigpipe = true)) :
    Echo.loop_body_sigpipe fd c = ⟨Echo.loop_body fd c.toConn, true⟩ := by
  unfold Echo.loop_body_sigpipe Echo.loop_body
  simp only [Echo.INVALID_SOCKET]
  by_cases h1 : c.accept_ret = -1
  · simp [h1]
  · by_cases h2 : c.recv_ret < 0
    · simp [h1, h2]
    · have h3 : c.send_sigpipe = false := by
        cases hs : c.send_sigpipe
        · rfl
        · exact absurd ⟨h1, by omega, hs⟩ h
      simp [h1, h2, h3]

theorem Stub.stub_sigpipe_of_kill (fd : Int) (c : SigConn) (h : c.accept_ret ≠ -1)
    (hr : 0 ≤ c.recv_ret) (hk : c.send_sigpipe = true) :
    Stub.loop_body_sigpipe fd c =
      ⟨[Event.accept fd c.accept_ret, Event.recv c.accept_ret 4096 c.recv_ret,
        Event.send_sigpipe c.accept_ret Stub.response_buffer 79], false⟩ := by
  have hr2 : ¬ c.recv_ret < 0 := by omega
  simp [Stub.loop_body_sigpipe, Stub.INVALID_SOCKET_VALUE, h, hr2, hk, buffer_length,
    Stub.response_buffer_length]

theorem Stub.stub_sigpipe_of_no_kill (fd : Int) (c : SigConn)
    (h : ¬ (c.accept_ret ≠ -1 ∧ 0 ≤ c.recv_ret ∧ c.send_sigpipe = true)) :
    Stub.loop_body_sigpipe fd c = ⟨Stub.loop_body fd c.toConn, true⟩ := by
  unfold Stub.loop_body_sigpipe Stub.loop_body
  simp only [Stub.INVALID_SOCKET_VALUE]
  by_cases h1 : c.accept_ret = -1
  · simp [h1]
  · by_cases h2 : c.recv_ret < 0
    · simp [h1, h2]
    · have h3 : c.send_sigpipe = false := by
        cases hs : c.send_sigpipe
        · rfl
        · exact absurd ⟨h1, by omega, hs⟩ h
      simp [h1, h2, h3]

/-- Echo server, pending socket and counts over any run: while the process
runs nothing is pending and the counts agree; once `send` has ended it the
last accepted socket is pending and the counts differ by one. -/
theorem Echo.echo_sigpipe_loop (fd : Int) (cs : List SigConn) :
    ((Echo.accept_loop_sigpipe fd cs).alive = true →
        track none (Echo.accept_loop_sigpipe fd cs).calls = some none
        ∧ accepted_count (Echo.accept_loop_sigpipe fd cs).calls
            = closed_count (Echo.accept_loop_sigpipe fd cs).calls)
    ∧ ((Echo.accept_loop_sigpipe fd cs).alive = false →
        (∃ fd', track none (Echo.accept_loop_sigpipe fd cs).calls = some (some fd'))
        ∧ accepted_count (Echo.accept_loop_sigpipe fd cs).calls
            = closed_count (Echo.accept_loop_sigpipe fd cs).calls + 1) := by
  induction cs with
  | nil => simp [Echo.accept_loop_sigpipe, track, accepted_count, closed_count]
  | cons c cs ih =>
    by_cases hk : c.accept_ret ≠ -1 ∧ 0 ≤ c.recv_ret ∧ c.send_sigpipe = true
    · have hb := Echo.echo_sigpipe_of_kill fd c hk.1 hk.2.1 hk.2.2
      simp [Echo.accept_loop_sigpipe, hb, track, accepted_count, closed_count,
        Event.is_accepted, Event.is_close, hk.1]
    · have hb := Echo.echo_sigpipe_of_no_kill fd c hk
      have hc := Echo.echo_counts_loop_body fd c.toConn
      simp only [accepted_count, closed_count] at hc ih ⊢
      simp only [Echo.accept_loop_sigpipe, hb, if_true, Echo.echo_track_loop_body,
        List.countP_append, hc]
      refine ⟨fun h => ⟨(ih.1 h).1, by rw [(ih.1 h).2]⟩, fun h => ⟨(ih.2 h).1, ?_⟩⟩
      rw [(ih.2 h).2]; omega

/-- HTTP stub, pending socket and counts over any run: while the process runs
nothing is pending and the counts agree; once `send` has ended it the last
accepted socket is pending and the counts differ by one. -/
theorem Stub.stub_sigpipe_loop (fd : Int) (cs : List SigConn) :
    ((Stub.accept_loop_sigpipe fd cs).alive = true →
        track none (Stub.accept_loop_sigpipe fd cs).calls = some none
        ∧ accepted_count (Stub.accept_loop_sigpipe fd cs).calls
            = closed_count (Stub.accept_loop_sigpipe fd cs).calls)
    ∧ ((Stub.accept_loop_sigpipe fd cs).alive = false →
        (∃ fd', track none (Stub.accept_loop_sigpipe fd cs).calls = some (some fd'))
        ∧ accepted_count (Stub.accept_loop_sigpipe fd cs).calls
            = closed_count (Stub.accept_loop_sigpipe fd cs).calls + 1) := by
  induction cs with
  | nil => simp [Stub.accept_loop_sigpipe, track, accepted_count, closed_count]
  | cons c cs ih =>
    by_cases hk : c.accept_ret ≠ -1 ∧ 0 ≤ c.recv_ret ∧ c.send_sigpipe = true
    · have hb := Stub.stub_sigpipe_of_kill fd c hk.1 hk.2.1 hk.2.2
      simp [Stub.accept_loop_sigpipe, hb, track, accepted_count, closed_count,
        Event.is_accepted, Event.is_close, hk.1]
    · have hb := Stub.stub_sigpipe_of_no_kill fd c hk
      have hc := Stub.stub_counts_loop_body fd c.toConn
      simp only [accepted_count, closed_count] at hc ih ⊢
      simp only [Stub.accept_loop_sigpipe, hb, if_true, Stub.stub_track_loop_body,
        List.countP_append, hc]
      refine ⟨fun h => ⟨(ih.1 h).1, by rw [(ih.1 h).2]⟩, fun h => ⟨(ih.2 h).1, ?_⟩⟩
      rw [(ih.2 h).2]; omega

theorem Echo.echo_sigpipe_absent (fd : Int) (cs : List SigConn)
    (h : ∀ d ∈ cs, d.send_sigpipe = false) :
    Echo.accept_loop_sigpipe fd cs
      = ⟨Echo.accept_loop fd (cs.map SigConn.toConn), true⟩ := by
  induction cs with
  | nil => rfl
  | cons c cs ih =>
    have hc : c.send_sigpipe = false := h c (List.mem_cons_self _ _)
    have ht : ∀ d ∈ cs, d.send_sigpipe = false := fun d hd => h d (List.mem_cons_of_mem _ hd)
    have hb := Echo.echo_sigpipe_of_no_kill fd c (by simp [hc])
    simp [Echo.accept_loop_sigpipe, hb, ih ht, Echo.accept_loop]

theorem Stub.stub_sigpipe_absent (fd : Int) (cs : List SigConn)
    (h : ∀ d ∈ cs, d.send_sigpipe = false) :
    Stub.accept_loop_sigpipe fd cs
      = ⟨Stub.accept_loop fd (cs.map SigConn.toConn), true⟩ := by
  induction cs with
  | nil => rfl
  | cons c cs ih =>
    have hc : c.send_sigpipe = false := h c (List.mem_cons_self _ _)
    have ht : ∀ d ∈ cs, d.send_sigpipe = false := fun d hd => h d (List.mem_cons_of_mem _ hd)
    have hb := Stub.stub_sigpipe_of_no_kill fd c (by simp [hc])
    simp [Stub.accept_loop_sigpipe, hb, ih ht, Stub.accept_loop]

/-- One iteration of the loop under every outcome, `SIGPIPE` included. -/
theorem Echo.echo_sigpipe_iteration (fd : Int) (c : SigConn) :
    (Echo.loop_body_sigpipe fd c).calls.filter Event.is_accept
        = [Event.accept fd c.accept_ret]
    ∧ (Echo.loop_body_sigpipe fd c).calls.head? = some (Event.accept fd c.accept_ret)
    ∧ ((Echo.loop_body_sigpipe fd c).alive = true →
        (Echo.loop_body_sigpipe fd c).calls.filter Event.is_close
          = (if c.accept_ret = -1 then [] else [Event.close c.accept_ret]))
    ∧ ((Echo.loop_body_sigpipe fd c).alive = false ↔
        (c.accept_ret ≠ -1 ∧ 0 ≤ c.recv_ret ∧ c.send_sigpipe = true))
    ∧ ((Echo.loop_body_sigpipe fd c).alive = false →
        (Echo.loop_body_sigpipe fd c).calls.filter Event.is_close = []) := by
  by_cases hk : c.accept_ret ≠ -1 ∧ 0 ≤ c.recv_ret ∧ c.send_sigpipe = true
  · have hb := Echo.echo_sigpipe_of_kill fd c hk.1 hk.2.1 hk.2.2
    rw [hb]
    simp [Event.is_accept, Event.is_close, hk.1, hk.2.1, hk.2.2]
  · have hb := Echo.echo_sigpipe_of_no_kill fd c hk
    have hr := (returning_sends_closed_exactly_once fd [] c.toConn).1
    rw [hb]
    refine ⟨hr.2.1, hr.2.2.1, fun _ => hr.2.2.2.1, ?_, ?_⟩
    · simp only [Bool.true_eq_false, false_iff]
      exact hk
    · intro h
      exact Bool.noConfusion h

/-- One iteration of the loop under every outcome, `SIGPIPE` included. -/
theorem Stub.stub_sigpipe_iteration (fd : Int) (c : SigConn) :
    (Stub.loop_body_sigpipe fd c).calls.filter Event.is_accept
        = [Event.accept fd c.accept_ret]
    ∧ (Stub.loop_body_sigpipe fd c).calls.head? = some (Event.accept fd c.accept_ret)
    ∧ ((Stub.loop_body_sigpipe fd c).alive = true →
        (Stub.loop_body_sigpipe fd c).calls.filter Event.is_close
          = (if c.accept_ret = -1 then [] else [Event.close c.accept_ret]))
    ∧ ((Stub.loop_body_sigpipe fd c).alive = false ↔
        (c.accept_ret ≠ -1 ∧ 0 ≤ c.recv_ret ∧ c.send_sigpipe = true))
    ∧ ((Stub.loop_body_sigpipe fd c).alive = false →
        (Stub.loop_body_sigpipe fd c).calls.filter Event.is_close = []) := by
  by_cases hk : c.accept_ret ≠ -1 ∧ 0 ≤ c.recv_ret ∧ c.send_sigpipe = true
  · have hb := Stub.stub_sigpipe_of_kill fd c hk.1 hk.2.1 hk.2.2
    rw [hb]
    simp [Event.is_accept, Event.is_close, hk.1, hk.2.1, hk.2.2]
  · have hb := Stub.stub_sigpipe_of_no_kill fd c hk
    have hr := (returning_sends_closed_exactly_once fd [] c.toConn).2
    rw [hb]
    refine ⟨hr.2.1, hr.2.2.1, fun _ => hr.2.2.2.1, ?_, ?_⟩
    · simp only [Bool.true_eq_false, false_iff]
      exact hk
    · intro h
      exact Bool.noConfusion h

/-- C3, counterexample. In both servers: two connections are accepted, the
first is served and closed, the peer of the second has closed when `send` is
called; `send` raises `SIGPIPE`, the process ends inside the call and the
second socket is never passed to `CLOSE_SOCKET`: two accepted, one closed. -/
theorem sigpipe_leaves_accepted_socket_unclosed :
    ((Echo.accept_loop_sigpipe 3 sigpipe_run).alive = false
      ∧ (Echo.accept_loop_sigpipe 3 sigpipe_run).calls =
          [Event.accept 3 4, Event.recv 4 128 4,
           Event.printf_s "Received message is:\n%.*s\n\n" 4
             (recv_store (buffer 128 []) [112, 105, 110, 103]),
           Event.send 4 (recv_store (buffer 128 []) [112, 105, 110, 103]) 4 4,
           Event.close 4,
           Event.accept 3 5, Event.recv 5 128 4,
           Event.printf_s "Received message is:\n%.*s\n\n" 4
             (recv_store (buffer 128 []) [112, 105, 110, 103]),
           Event.send_sigpipe 5 (recv_store (buffer 128 []) [112, 105, 110, 103]) 4]
      ∧ accepted_count (Echo.accept_loop_sigpipe 3 sigpipe_run).calls = 2
      ∧ closed_count (Echo.accept_loop_sigpipe 3 sigpipe_run).calls = 1
      ∧ ¬ (accepted_count (Echo.accept_loop_sigpipe 3 sigpipe_run).calls
            = closed_count (Echo.accept_loop_sigpipe 3 sigpipe_run).calls))
    ∧ ((Stub.accept_loop_sigpipe 3 sigpipe_run).alive = false
      ∧ (Stub.accept_loop_sigpipe 3 sigpipe_run).calls =
          [Event.accept 3 4, Event.recv 4 4096 4,
           Event.send 4 Stub.response_buffer 79 4,
           Event.close 4,
           Event.accept 3 5, Event.recv 5 4096 4,
           Event.send_sigpipe 5 Stub.response_buffer 79]
      ∧ accepted_count (Stub.accept_loop_sigpipe 3 sigpipe_run).calls = 2
      ∧ closed_count (Stub.accept_loop_sigpipe 3 sigpipe_run).calls = 1
      ∧ ¬ (accepted_count (Stub.accept_loop_sigpipe 3 sigpipe_run).calls
            = closed_count (Stub.accept_loop_sigpipe 3 sigpipe_run).calls)) := by
  have e1 := Echo.echo_sigpipe_of_no_kill 3
    ⟨⟨4, [], 4, [112, 105, 110, 103], 4⟩, false⟩ (by decide)
  have e1b := Echo.echo_loop_body_of_recv_ok 3 ⟨4, [], 4, [112, 105, 110, 103], 4⟩
    (by decide) (by decide)
  have e2 := Echo.echo_sigpipe_of_kill 3
    ⟨⟨5, [], 4, [112, 105, 110, 103], 0⟩, true⟩ (by decide) (by decide) rfl
  have s1 := Stub.stub_sigpipe_of_no_kill 3
    ⟨⟨4, [], 4, [112, 105, 110, 103], 4⟩, false⟩ (by decide)
  have s1b := Stub.stub_loop_body_of_recv_ok 3 ⟨4, [], 4, [112, 105, 110, 103], 4⟩
    (by decide) (by decide)
  have s2 := Stub.stub_sigpipe_of_kill 3
    ⟨⟨5, [], 4, [112, 105, 110, 103], 0⟩, true⟩ (by decide) (by decide) rfl
  have hE : Echo.accept_loop_sigpipe 3 sigpipe_run =
      ⟨[Event.accept 3 4, Event.recv 4 128 4,
        Event.printf_s "Received message is:\n%.*s\n\n" 4
          (recv_store (buffer 128 []) [112, 105, 110, 103]),
        Event.send 4 (recv_store (buffer 128 []) [112, 105, 110, 103]) 4 4,
        Event.close 4,
        Event.accept 3 5, Event.recv 5 128 4,
        Event.printf_s "Received message is:\n%.*s\n\n" 4
          (recv_store (buffer 128 []) [112, 105, 110, 103]),
        Event.send_sigpipe 5 (recv_store (buffer 128 []) [112, 105, 110, 103]) 4],
       false⟩ := by
    simp [sigpipe_run, Echo.accept_loop_sigpipe, e1, e1b, e2]
  have hS : Stub.accept_loop_sigpipe 3 sigpipe_run =
      ⟨[Event.accept 3 4, Event.recv 4 4096 4,
        Event.send 4 Stub.response_buffer 79 4,
        Event.close 4,
        Event.accept 3 5, Event.recv 5 4096 4,
        Event.send_sigpipe 5 Stub.response_buffer 79], false⟩ := by
    simp [sigpipe_run, Stub.accept_loop_sigpipe, s1, s1b, s2]
  rw [hE, hS]
  simp [accepted_count, closed_count, Event.is_accepted, Event.is_close]

/-- C3, amended. In both servers, over every finite sequence of accept, recv
and send outcomes: each iteration starts with its only `accept`; an iteration
that the process survives closes exactly the accepted socket, once, when
`accept` succeeded and nothing when it failed, on the path of a failed `recv`
and whatever value `send` returns; the process ends in an iteration exactly
when `send` is reached and raises `SIGPIPE`, and that iteration has no close.
So as long as every `send` returns, each accepted socket is closed exactly
once before the next `accept` and the number of accepted connections equals
the number of closed ones; once a `send` has ended the process, the last
accepted socket is left unclosed and the counts differ by one. -/
theorem accepted_sockets_closed_unless_sigpipe (fd : Int) (cs : List SigConn) (c : SigConn) :
    ((Echo.loop_body_sigpipe fd c).calls.filter Event.is_accept
          = [Event.accept fd c.accept_ret]
      ∧ (Echo.loop_body_sigpipe fd c).calls.head? = some (Event.accept fd c.accept_ret)
      ∧ ((Echo.loop_body_sigpipe fd c).alive = true →
          (Echo.loop_body_sigpipe fd c).calls.filter Event.is_close
            = (if c.accept_ret = -1 then [] else [Event.close c.accept_ret]))
      ∧ ((Echo.loop_body_sigpipe fd c).alive = false ↔
          (c.accept_ret ≠ -1 ∧ 0 ≤ c.recv_ret ∧ c.send_sigpipe = true))
      ∧ ((Echo.loop_body_sigpipe fd c).alive = false →
          (Echo.loop_body_sigpipe fd c).calls.filter Event.is_close = [])
      ∧ ((∀ d ∈ cs, d.send_sigpipe = false) →
          Echo.accept_loop_sigpipe fd cs
            = ⟨Echo.accept_loop fd (cs.map SigConn.toConn), true⟩)
      ∧ ((Echo.accept_loop_sigpipe fd cs).alive = true →
          track none (Echo.accept_loop_sigpipe fd cs).calls = some none
          ∧ accepted_count (Echo.accept_loop_sigpipe fd cs).calls
              = closed_count (Echo.accept_loop_sigpipe fd cs).calls)
      ∧ ((Echo.accept_loop_sigpipe fd cs).alive = false →
          (∃ pending, track none (Echo.accept_loop_sigpipe fd cs).calls = some (some pending))
          ∧ accepted_count (Echo.accept_loop_sigpipe fd cs).calls
              = closed_count (Echo.accept_loop_sigpipe fd cs).calls + 1))
    ∧ ((Stub.loop_body_sigpipe fd c).calls.filter Event.is_accept
          = [Event.accept fd c.accept_ret]
      ∧ (Stub.loop_body_sigpipe fd c).calls.head? = some (Event.accept fd c.accept_ret)
      ∧ ((Stub.loop_body_sigpipe fd c).alive = true →
          (Stub.loop_body_sigpipe fd c).calls.filter Event.is_close
            = (if c.accept_ret = -1 then [] else [Event.close c.accept_ret]))
      ∧ ((Stub.loop_body_sigpipe fd c).alive = false ↔
          (c.accept_ret ≠ -1 ∧ 0 ≤ c.recv_ret ∧ c.send_sigpipe = true))
      ∧ ((Stub.loop_body_sigpipe fd c).alive = false →
          (Stub.loop_body_sigpipe fd c).calls.filter Event.is_close = [])
      ∧ ((∀ d ∈ cs, d.send_sigpipe = false) →
          Stub.accept_loop_sigpipe fd cs
            = ⟨Stub.accept_loop fd (cs.map SigConn.toConn), true⟩)
      ∧ ((Stub.accept_loop_sigpipe fd cs).alive = true →
          track none (Stub.accept_loop_sigpipe fd cs).calls = some none
          ∧ accepted_count (Stub.accept_loop_sigpipe fd cs).calls
              = closed_count (Stub.accept_loop_sigpipe fd cs).calls)
      ∧ ((Stub.accept_loop_sigpipe fd cs).alive = false →
          (∃ pending, track none (Stub.accept_loop_sigpipe fd cs).calls = some (some pending))
          ∧ accepted_count (Stub.accept_loop_sigpipe fd cs).calls
              = closed_count (Stub.accept_loop_sigpipe fd cs).calls + 1)) := by
  have hE := Echo.echo_sigpipe_iteration fd c
  have hS := Stub.stub_sigpipe_iteration fd c
  have lE := Echo.echo_sigpipe_loop fd cs
  have lS := Stub.stub_sigpipe_loop fd cs
  exact ⟨⟨hE.1, hE.2.1, hE.2.2.1, hE.2.2.2.1, hE.2.2.2.2,
      Echo.echo_sigpipe_absent fd cs, lE.1, lE.2⟩,
    ⟨hS.1, hS.2.1, hS.2.2.1, hS.2.2.2.1, hS.2.2.2.2,
      Stub.stub_sigpipe_absent fd cs, lS.1, lS.2⟩⟩

/-- Witness for C3 (amended): two connections that are both served. -/
theorem accepted_sockets_closed_unless_sigpipe_witness :
    (∀ d ∈ served_run, d.send_sigpipe = false)
    ∧ Echo.accept_loop_sigpipe 3 served_run
        = ⟨Echo.accept_loop 3 (served_run.map SigConn.toConn), true⟩
    ∧ accepted_count (Echo.accept_loop 3 (served_run.map SigConn.toConn))
        = closed_count (Echo.accept_loop 3 (served_run.map SigConn.toConn))
    ∧ Stub.accept_loop_sigpipe 3 served_run
        = ⟨Stub.accept_loop 3 (served_run.map SigConn.toConn), true⟩
    ∧ accepted_count (Stub.accept_loop 3 (served_run.map SigConn.toConn))
        = closed_count (Stub.accept_loop 3 (served_run.map SigConn.toConn)) := by
  have hrun : ∀ d ∈ served_run, d.send_sigpipe = false := by decide
  have h := accepted_sockets_closed_unless_sigpipe 3 served_run
    ⟨⟨4, [], 4, [112, 105, 110, 103], 4⟩, false⟩
  have hE := h.1.2.2.2.2.2.1 hrun
  have hS := h.2.2.2.2.2.2.1 hrun
  have cE := (h.1.2.2.2.2.2.2.1 (by rw [hE])).2
  have cS := (h.2.2.2.2.2.2.2.1 (by rw [hS])).2
  rw [hE] at cE
  rw [hS] at cS
  exact ⟨hrun, hE, cE, hS, cS⟩

/-- C4. In both servers, after a successful startup, N consecutive failed
accepts followed by a successful one: `main` is still in its loop, the failed
accepts leave nothing in the trace but the `accept` calls themselves (and the
message of the HTTP stub), none of them a `recv`, `send` or close, and the
accepted connection is then handled exactly as the first connection of a run
without failures: one `recv`, the response `send`, one close of the accepted
socket. -/
theorem failed_accepts_do_not_stop_the_loop (e : Env) (fs : List Conn) (c : Conn)
    (rest : List Conn)
    (hsock : e.socket_ret ≠ -1) (hpton : e.inet_pton_ret = 1)
    (hbind : e.bind_ret = 0) (hlisten : e.listen_ret = 0)
    (hconns : e.conns = fs ++ c :: rest)
    (hfs : ∀ f ∈ fs, f.accept_ret = -1)
    (hc : c.accept_ret ≠ -1) (hrecv : 0 ≤ c.recv_ret) :
    ((Echo.main e).ret = none
      ∧ (Echo.main e).trace = Echo.startup_calls e
          ++ List.replicate fs.length (Event.accept e.socket_ret (-1))
          ++ Echo.accept_loop e.socket_ret (c :: rest)
      ∧ (∀ ev ∈ List.replicate fs.length (Event.accept e.socket_ret (-1)),
          ev.is_recv = false ∧ ev.is_send = false ∧ ev.is_close = false)
      ∧ Echo.accept_loop e.socket_ret (c :: rest) =
          [Event.accept e.socket_ret c.accept_ret,
           Event.recv c.accept_ret 128 c.recv_ret,
           Event.printf_s "Received message is:\n%.*s\n\n" c.recv_ret
             (recv_store (buffer 128 c.stack) c.recv_data),
           Event.send c.accept_ret (recv_store (buffer 128 c.stack) c.recv_data)
             c.recv_ret c.send_ret,
           Event.close c.accept_ret] ++ Echo.accept_loop e.socket_ret rest)
    ∧ ((Stub.main e).ret = none
      ∧ (Stub.main e).trace = Stub.startup_calls e
          ++ Stub.failed_accepts e.socket_ret fs.length
          ++ Stub.accept_loop e.socket_ret (c :: rest)
      ∧ (∀ ev ∈ Stub.failed_accepts e.socket_ret fs.length,
          ev.is_recv = false ∧ ev.is_send = false ∧ ev.is_close = false)
      ∧ Stub.accept_loop e.socket_ret (c :: rest) =
          [Event.accept e.socket_ret c.accept_ret,
           Event.recv c.accept_ret 4096 c.recv_ret,
           Event.send c.accept_ret Stub.response_buffer 79 c.send_ret,
           Event.close c.accept_ret] ++ Stub.accept_loop e.socket_ret rest) := by
  have hE := Echo.echo_main_of_startup_ok e hsock hpton (by omega) (by omega)
  have hS := Stub.stub_main_of_startup_ok e hsock hbind hlisten
  refine ⟨⟨?_, ?_, ?_, ?_⟩, ⟨?_, ?_, ?_, ?_⟩⟩
  · rw [hE]
  · rw [hE, hconns, Echo.echo_accept_loop_append, Echo.echo_accept_loop_failed _ fs hfs]
    simp
  · intro ev hev
    rw [(List.mem_replicate.mp hev).2]
    simp [Event.is_recv, Event.is_send, Event.is_close]
  · simp [Echo.accept_loop, Echo.echo_loop_body_of_recv_ok _ c hc hrecv]
  · rw [hS]
  · rw [hS, hconns, Stub.stub_accept_loop_append, Stub.stub_accept_loop_failed _ fs hfs]
    simp
  · intro ev hev
    rcases Stub.failed_accepts_mem _ _ ev hev with h | h <;>
      simp [h, Event.is_recv, Event.is_send, Event.is_close]
  · simp [Stub.accept_loop, Stub.stub_loop_body_of_recv_ok _ c hc hrecv]

/-- Witness for C4: three failed accepts, then the request "ping". -/
theorem failed_accepts_do_not_stop_the_loop_witness :
    (Echo.main three_failures_env).trace =
      [Event.socket 3, Event.setsockopt 3, Event.inet_pton "127.0.0.1" 1,
       Event.bind 3 8080 0, Event.listen 3 32 0,
       Event.accept 3 (-1), Event.accept 3 (-1), Event.accept 3 (-1),
       Event.accept 3 4, Event.recv 4 128 4,
       Event.printf_s "Received message is:\n%.*s\n\n" 4
         (recv_store (buffer 128 []) [112, 105, 110, 103]),
       Event.send 4 (recv_store (buffer 128 []) [112, 105, 110, 103]) 4 4,
       Event.close 4]
    ∧ (Stub.main three_failures_env).trace =
      [Event.socket 3, Event.inet_addr "127.0.0.1" 0x0100007F,
       Event.bind 3 8080 0, Event.listen 3 32 0,
       Event.accept 3 (-1), Event.printf "accept failed\n",
       Event.accept 3 (-1), Event.printf "accept failed\n",
       Event.accept 3 (-1), Event.printf "accept failed\n",
       Event.accept 3 4, Event.recv 4 4096 4,
       Event.send 4 Stub.response_buffer 79 4,
       Event.close 4] := by
  have h := failed_accepts_do_not_stop_the_loop three_failures_env
    [⟨-1, [], 0, [], 0⟩, ⟨-1, [], 0, [], 0⟩, ⟨-1, [], 0, [], 0⟩]
    ⟨4, [], 4, [112, 105, 110, 103], 4⟩ []
    (by decide) rfl rfl rfl rfl (by decide) (by decide) (by decide)
  refine ⟨?_, ?_⟩
  · rw [h.1.2.1, h.1.2.2.2]; rfl
  · rw [h.2.2.1, h.2.2.2.2]; rfl

/-- C5. In both servers, after a successful startup and for a connection at
any position of the run: when its `recv` returns a negative value, the calls
for that connection are `accept`, `recv` and the close of the accepted socket
(with the message of the HTTP stub), no `send`, and the trace goes on with
the next iterations while `main` stays in its loop; and a `send` is issued
for an accepted connection if and only if its `recv` returned a value that
is not negative. -/
theorem recv_failure_skips_the_response (e : Env) (pre : List Conn) (c : Conn)
    (rest : List Conn)
    (hsock : e.socket_ret ≠ -1) (hpton : e.inet_pton_ret = 1)
    (hbind : e.bind_ret = 0) (hlisten : e.listen_ret = 0)
    (hconns : e.conns = pre ++ c :: rest)
    (hc : c.accept_ret ≠ -1) :
    ((Echo.main e).ret = none
      ∧ (Echo.main e).trace = Echo.startup_calls e ++ Echo.accept_loop e.socket_ret pre
          ++ Echo.loop_body e.socket_ret c ++ Echo.accept_loop e.socket_ret rest
      ∧ (c.recv_ret < 0 → Echo.loop_body e.socket_ret c =
          [Event.accept e.socket_ret c.accept_ret,
           Event.recv c.accept_ret 128 c.recv_ret,
           Event.close c.accept_ret])
      ∧ ((∃ ev ∈ Echo.loop_body e.socket_ret c, ev.is_send = true) ↔ 0 ≤ c.recv_ret)
      ∧ ((Echo.loop_body e.socket_ret c).countP Event.is_send
          = if 0 ≤ c.recv_ret then 1 else 0))
    ∧ ((Stub.main e).ret = none
      ∧ (Stub.main e).trace = Stub.startup_calls e ++ Stub.accept_loop e.socket_ret pre
          ++ Stub.loop_body e.socket_ret c ++ Stub.accept_loop e.socket_ret rest
      ∧ (c.recv_ret < 0 → Stub.loop_body e.socket_ret c =
          [Event.accept e.socket_ret c.accept_ret,
           Event.recv c.accept_ret 4096 c.recv_ret,
           Event.printf "recv failed\n",
           Event.close c.accept_ret])
      ∧ ((∃ ev ∈ Stub.loop_body e.socket_ret c, ev.is_send = true) ↔ 0 ≤ c.recv_ret)
      ∧ ((Stub.loop_body e.socket_ret c).countP Event.is_send
          = if 0 ≤ c.recv_ret then 1 else 0)) := by
  have hE := Echo.echo_main_of_startup_ok e hsock hpton (by omega) (by omega)
  have hS := Stub.stub_main_of_startup_ok e hsock hbind hlisten
  refine ⟨⟨?_, ?_, ?_, ?_, ?_⟩, ⟨?_, ?_, ?_, ?_, ?_⟩⟩
  · rw [hE]
  · rw [hE, hconns, Echo.echo_accept_loop_append]
    simp [Echo.accept_loop]
  · intro hr
    exact Echo.echo_loop_body_of_recv_failed _ c hc hr
  · by_cases hr : c.recv_ret < 0
    · have hn : ¬ 0 ≤ c.recv_ret := by omega
      simp [Echo.echo_loop_body_of_recv_failed _ c hc hr, Event.is_send, hn]
    · have hp : 0 ≤ c.recv_ret := by omega
      simp [Echo.echo_loop_body_of_recv_ok _ c hc hp, Event.is_send, hp]
  · by_cases hr : c.recv_ret < 0
    · have hn : ¬ 0 ≤ c.recv_ret := by omega
      simp [Echo.echo_loop_body_of_recv_failed _ c hc hr, Event.is_send, hn]
    · have hp : 0 ≤ c.recv_ret := by omega
      simp [Echo.echo_loop_body_of_recv_ok _ c hc hp, Event.is_send, hp]
  · rw [hS]
  · rw [hS, hconns, Stub.stub_accept_loop_append]
    simp [Stub.accept_loop]
  · intro hr
    exact Stub.stub_loop_body_of_recv_failed _ c hc hr
  · by_cases hr : c.recv_ret < 0
    · have hn : ¬ 0 ≤ c.recv_ret := by omega
      simp [Stub.stub_loop_body_of_recv_failed _ c hc hr, Event.is_send, hn]
    · have hp : 0 ≤ c.recv_ret := by omega
      simp [Stub.stub_loop_body_of_recv_ok _ c hc hp, Event.is_send, hp]
  · by_cases hr : c.recv_ret < 0
    · have hn : ¬ 0 ≤ c.recv_ret := by omega
      simp [Stub.stub_loop_body_of_recv_failed _ c hc hr, Event.is_send, hn]
    · have hp : 0 ≤ c.recv_ret := by omega
      simp [Stub.stub_loop_body_of_recv_ok _ c hc hp, Event.is_send, hp]

/-- Witness for C5: the first connection of the run fails in `recv`, the second
one is served. -/
theorem recv_failure_skips_the_response_witness :
    (Echo.main recv_failure_env).ret = none
    ∧ (Echo.main recv_failure_env).trace =
      [Event.socket 3, Event.setsockopt 3, Event.inet_pton "127.0.0.1" 1,
       Event.bind 3 8080 0, Event.listen 3 32 0,
       Event.accept 3 4, Event.recv 4 128 (-1), Event.close 4,
       Event.accept 3 5, Event.recv 5 128 4,
       Event.printf_s "Received message is:\n%.*s\n\n" 4
         (recv_store (buffer 128 []) [112, 105, 110, 103]),
       Event.send 5 (recv_store (buffer 128 []) [112, 105, 110, 103]) 4 4,
       Event.close 5]
    ∧ (Stub.main recv_failure_env).trace =
      [Event.socket 3, Event.inet_addr "127.0.0.1" 0x0100007F,
       Event.bind 3 8080 0, Event.listen 3 32 0,
       Event.accept 3 4, Event.recv 4 4096 (-1), Event.printf "recv failed\n",
       Event.close 4,
       Event.accept 3 5, Event.recv 5 4096 4,
       Event.send 5 Stub.response_buffer 79 4,
       Event.close 5] := by
  have h := recv_failure_skips_the_response recv_failure_env []
    ⟨4, [], -1, [], 0⟩ [⟨5, [], 4, [112, 105, 110, 103], 4⟩]
    (by decide) rfl rfl rfl rfl (by decide)
  refine ⟨h.1.1, ?_, ?_⟩
  · rw [h.1.2.1, h.1.2.2.1 (by decide)]
    simp [Echo.startup_calls, Echo.accept_loop, recv_failure_env,
      Echo.echo_loop_body_of_recv_ok 3 ⟨5, [], 4, [112, 105, 110, 103], 4⟩ (by decide) (by decide)]
  · rw [h.2.2.1, h.2.2.2.1 (by decide)]
    simp [Stub.startup_calls, Stub.accept_loop, recv_failure_env,
      Stub.stub_loop_body_of_recv_ok 3 ⟨5, [], 4, [112, 105, 110, 103], 4⟩ (by decide) (by decide)]

/-! ## Claims about the response -/

/-- C8, counterexample. When `send` takes only part of the response, the
connection is closed although neither all bytes of the response were taken by
the transport nor any `send` failed: the echo server with a 4-byte response of
which 2 bytes are taken, the HTTP stub with 40 bytes taken of 79. -/
theorem short_send_is_not_completed :
    ¬ ((4 : Int) ≤ accepted_bytes (Echo.loop_body 3 short_send_conn)
        ∨ send_failed (Echo.loop_body 3 short_send_conn) = true)
    ∧ (Echo.loop_body 3 short_send_conn).getLast? = some (Event.close 4)
    ∧ ¬ ((79 : Int) ≤ accepted_bytes (Stub.loop_body 3 short_send_conn_stub)
        ∨ send_failed (Stub.loop_body 3 short_send_conn_stub) = true)
    ∧ (Stub.loop_body 3 short_send_conn_stub).getLast? = some (Event.close 4) := by
  have hE := Echo.echo_loop_body_of_recv_ok 3 short_send_conn (by decide) (by decide)
  have hS := Stub.stub_loop_body_of_recv_ok 3 short_send_conn_stub (by decide) (by decide)
  rw [hE, hS]
  simp [accepted_bytes, send_failed, short_send_conn, short_send_conn_stub]

/-- C8, amended. In both servers, for every accepted connection whose `recv`
succeeds, exactly one `send` is issued, with the whole response (the buffer
and its full length), and the connection is closed right after it whatever
`send` returned: the bytes that the transport took are those of that single
call, so when it takes fewer than the length passed, the remaining bytes are
not sent again. -/
theorem response_is_sent_by_a_single_send (fd : Int) (c : Conn)
    (hc : c.accept_ret ≠ -1) (hrecv : 0 ≤ c.recv_ret) :
    (Echo.loop_body fd c =
        [Event.accept fd c.accept_ret,
         Event.recv c.accept_ret 128 c.recv_ret,
         Event.printf_s "Received message is:\n%.*s\n\n" c.recv_ret
           (recv_store (buffer 128 c.stack) c.recv_data),
         Event.send c.accept_ret (recv_store (buffer 128 c.stack) c.recv_data)
           c.recv_ret c.send_ret,
         Event.close c.accept_ret]
      ∧ (Echo.loop_body fd c).countP Event.is_send = 1
      ∧ accepted_bytes (Echo.loop_body fd c) = max c.send_ret 0
      ∧ (0 ≤ c.send_ret → c.send_ret < c.recv_ret →
          accepted_bytes (Echo.loop_body fd c) < c.recv_ret
            ∧ send_failed (Echo.loop_body fd c) = false))
    ∧ (Stub.loop_body fd c =
        [Event.accept fd c.accept_ret,
         Event.recv c.accept_ret 4096 c.recv_ret,
         Event.send c.accept_ret Stub.response_buffer 79 c.send_ret,
         Event.close c.accept_ret]
      ∧ (Stub.loop_body fd c).countP Event.is_send = 1
      ∧ accepted_bytes (Stub.loop_body fd c) = max c.send_ret 0
      ∧ (0 ≤ c.send_ret → c.send_ret < 79 →
          accepted_bytes (Stub.loop_body fd c) < 79
            ∧ send_failed (Stub.loop_body fd c) = false)) := by
  have hE := Echo.echo_loop_body_of_recv_ok fd c hc hrecv
  have hS := Stub.stub_loop_body_of_recv_ok fd c hc hrecv
  refine ⟨⟨hE, ?_, ?_, ?_⟩, ⟨hS, ?_, ?_, ?_⟩⟩
  · rw [hE]; simp [Event.is_send]
  · rw [hE]; simp [accepted_bytes]
  · intro h0 hlt
    rw [hE]
    have hn : ¬ c.send_ret < 0 := by omega
    simp [accepted_bytes, send_failed, h0, hn, hlt]
  · rw [hS]; simp [Event.is_send]
  · rw [hS]; simp [accepted_bytes]
  · intro h0 hlt
    rw [hS]
    have hn : ¬ c.send_ret < 0 := by omega
    simp [accepted_bytes, send_failed, h0, hn, hlt]

/-- Witness for C8 (amended): a `send` that takes 2 bytes of 4. -/
theorem response_is_sent_by_a_single_send_witness :
    (Echo.loop_body 3 short_send_conn).countP Event.is_send = 1
    ∧ accepted_bytes (Echo.loop_body 3 short_send_conn) = 2
    ∧ (Stub.loop_body 3 short_send_conn).countP Event.is_send = 1
    ∧ accepted_bytes (Stub.loop_body 3 short_send_conn) = 2 := by
  have h := response_is_sent_by_a_single_send 3 short_send_conn (by decide) (by decide)
  exact ⟨h.1.2.1, h.1.2.2.1, h.2.2.1, h.2.2.2.1⟩

/-- C10. In both servers, every accepted connection is read by exactly one
`recv`, whose capacity is the size of the whole buffer (128 in the echo server,
4096 in the HTTP stub), and at most one `send` is issued; when `recv` returns
at most its capacity, every length used afterwards lies between 0 and the size
of the array it goes with (the precision of the print and the length of the
echo `send` are at most 128, the HTTP stub sends the 79 bytes of its 79-byte
array). -/
theorem single_bounded_read (fd : Int) (c : Conn) (hc : c.accept_ret ≠ -1) :
    ((buffer 128 c.stack).length = 128
      ∧ (recv_store (buffer 128 c.stack) c.recv_data).length = 128
      ∧ (Echo.loop_body fd c).filter Event.is_recv
          = [Event.recv c.accept_ret 128 c.recv_ret]
      ∧ (Echo.loop_body fd c).countP Event.is_send ≤ 1
      ∧ (c.recv_ret ≤ 128 → ∀ ev ∈ Echo.loop_body fd c, ev.in_bounds))
    ∧ ((buffer 4096 c.stack).length = 4096
      ∧ (Stub.loop_body fd c).filter Event.is_recv
          = [Event.recv c.accept_ret 4096 c.recv_ret]
      ∧ (Stub.loop_body fd c).countP Event.is_send ≤ 1
      ∧ (c.recv_ret ≤ 4096 → ∀ ev ∈ Stub.loop_body fd c, ev.in_bounds)) := by
  refine ⟨⟨buffer_length _ _, ?_, ?_, ?_, ?_⟩, ⟨buffer_length _ _, ?_, ?_, ?_⟩⟩
  · rw [recv_store_length, buffer_length]
  · by_cases hr : c.recv_ret < 0
    · simp [Echo.echo_loop_body_of_recv_failed fd c hc hr, Event.is_recv]
    · simp [Echo.echo_loop_body_of_recv_ok fd c hc (by omega), Event.is_recv]
  · by_cases hr : c.recv_ret < 0
    · simp [Echo.echo_loop_body_of_recv_failed fd c hc hr, Event.is_send]
    · simp [Echo.echo_loop_body_of_recv_ok fd c hc (by omega), Event.is_send]
  · intro hcap ev hev
    by_cases hr : c.recv_ret < 0
    · rw [Echo.echo_loop_body_of_recv_failed fd c hc hr] at hev
      simp only [List.mem_cons, List.mem_singleton, List.not_mem_nil, or_false] at hev
      rcases hev with h | h | h <;> simp [h, Event.in_bounds]
    · have hp : 0 ≤ c.recv_ret := by omega
      rw [Echo.echo_loop_body_of_recv_ok fd c hc hp] at hev
      simp only [List.mem_cons, List.mem_singleton, List.not_mem_nil, or_false] at hev
      rcases hev with h | h | h | h | h <;>
        simp [h, Event.in_bounds, recv_store_length, buffer_length, hp, hcap]
  · by_cases hr : c.recv_ret < 0
    · simp [Stub.stub_loop_body_of_recv_failed fd c hc hr, Event.is_recv]
    · simp [Stub.stub_loop_body_of_recv_ok fd c hc (by omega), Event.is_recv]
  · by_cases hr : c.recv_ret < 0
    · simp [Stub.stub_loop_body_of_recv_failed fd c hc hr, Event.is_send]
    · simp [Stub.stub_loop_body_of_recv_ok fd c hc (by omega), Event.is_send]
  · intro _ ev hev
    by_cases hr : c.recv_ret < 0
    · rw [Stub.stub_loop_body_of_recv_failed fd c hc hr] at hev
      simp only [List.mem_cons, List.mem_singleton, List.not_mem_nil, or_false] at hev
      rcases hev with h | h | h | h <;> simp [h, Event.in_bounds]
    · have hp : 0 ≤ c.recv_ret := by omega
      rw [Stub.stub_loop_body_of_recv_ok fd c hc hp] at hev
      simp only [List.mem_cons, List.mem_singleton, List.not_mem_nil, or_false] at hev
      rcases hev with h | h | h | h <;>
        simp [h, Event.in_bounds, Stub.response_buffer_length]

/-- Witness for C10: a connection that fills the whole buffer of the echo
server. -/
theorem single_bounded_read_witness :
    (Echo.loop_body 3 ⟨4, [], 128, List.replicate 128 65, 128⟩).filter Event.is_recv
        = [Event.recv 4 128 128]
    ∧ (∀ ev ∈ Echo.loop_body 3 ⟨4, [], 128, List.replicate 128 65, 128⟩, ev.in_bounds)
    ∧ (Stub.loop_body 3 ⟨4, [], 128, List.replicate 128 65, 128⟩).filter Event.is_recv
        = [Event.recv 4 4096 128]
    ∧ (∀ ev ∈ Stub.loop_body 3 ⟨4, [], 128, List.replicate 128 65, 128⟩, ev.in_bounds) := by
  have h := single_bounded_read 3 ⟨4, [], 128, List.replicate 128 65, 128⟩ (by decide)
  exact ⟨h.1.2.2.1, h.1.2.2.2.2 (by decide), h.2.2.1, h.2.2.2.2 (by decide)⟩

/-! ## The fixed response of the HTTP stub -/

theorem Stub.response_buffer_eq : Stub.response_buffer = spec_fixed_response ++ [0] := by
  decide

/-- C9. HTTP stub: for every accepted connection whose `recv` succeeds, the
single `send` gets the array `response_buffer` and the length 79, its size;
that is one more than the 78 bytes of the fixed response, and the bytes sent
are the fixed response followed by one zero byte; the body after the blank line
is 14 bytes, the payload "Hello, world!" and the zero byte, while the header
declares a content length of 13, the length of the payload. -/
theorem Stub.response_has_trailing_terminator (fd : Int) (c : Conn)
    (hc : c.accept_ret ≠ Stub.INVALID_SOCKET_VALUE) (hrecv : 0 ≤ c.recv_ret) :
    (Stub.loop_body fd c).filter Event.is_send
        = [Event.send c.accept_ret Stub.response_buffer 79 c.send_ret]
    ∧ Stub.response_buffer.length = 79
    ∧ spec_fixed_response.length = 78
    ∧ sent (Stub.loop_body fd c) = [spec_fixed_response ++ [0]]
    ∧ Stub.response_buffer = spec_fixed_response ++ [0]
    ∧ body_after_blank_line Stub.response_buffer
        = some (bytes "Hello, world!" ++ [0])
    ∧ (bytes "Hello, world!" ++ [0]).length = 14
    ∧ declared_content_length Stub.response_buffer = some 13
    ∧ (bytes "Hello, world!").length = 13 := by
  have hS := Stub.stub_loop_body_of_recv_ok fd c hc hrecv
  refine ⟨?_, Stub.response_buffer_length, by decide, ?_, Stub.response_buffer_eq,
    by decide, by decide, by decide, by decide⟩
  · rw [hS]; simp [Event.is_send]
  · rw [hS]
    have ht : List.take 79 Stub.response_buffer = Stub.response_buffer := by
      rw [List.take_of_length_le]
      rw [Stub.response_buffer_length]
    have h79 : (79 : Int).toNat = 79 := rfl
    simp only [sent, h79, ht]; rw [Stub.response_buffer_eq]

/-- Witness for C9: the request of scenario 3. -/
theorem Stub.response_has_trailing_terminator_witness :
    (Stub.loop_body 3 get_request_conn).filter Event.is_send
        = [Event.send 4 Stub.response_buffer 79 79]
    ∧ sent (Stub.loop_body 3 get_request_conn) = [spec_fixed_response ++ [0]] := by
  have h := Stub.response_has_trailing_terminator 3 get_request_conn (by decide) (by decide)
  exact ⟨h.1, h.2.2.2.1⟩

/-- C2, evaluation at the failing input. HTTP stub: for the request of
scenario 3, and for the empty request, the bytes handed to `send` are the
78-byte fixed response followed by a zero byte, 79 bytes, and not the fixed
response itself. -/
theorem Stub.response_differs_from_fixed_response :
    sent (Stub.loop_body 3 get_request_conn) = [spec_fixed_response ++ [0]]
    ∧ sent (Stub.loop_body 3 get_request_conn) ≠ [spec_fixed_response]
    ∧ sent (Stub.loop_body 3 empty_request_conn) = [spec_fixed_response ++ [0]]
    ∧ sent (Stub.loop_body 3 empty_request_conn) ≠ [spec_fixed_response]
    ∧ (sent (Stub.loop_body 3 get_request_conn)).map List.length = [79]
    ∧ spec_fixed_response.length = 78 := by
  have h1 := Stub.stub_loop_body_of_recv_ok 3 get_request_conn (by decide) (by decide)
  have h2 := Stub.stub_loop_body_of_recv_ok 3 empty_request_conn (by decide) (by decide)
  have ht : List.take 79 Stub.response_buffer = Stub.response_buffer := by
    rw [List.take_of_length_le]
    rw [Stub.response_buffer_length]
  have h79 : (79 : Int).toNat = 79 := rfl
  have hs1 : sent (Stub.loop_body 3 get_request_conn) = [spec_fixed_response ++ [0]] := by
    rw [h1]; simp only [sent, h79, ht]; rw [Stub.response_buffer_eq]
  have hs2 : sent (Stub.loop_body 3 empty_request_conn) = [spec_fixed_response ++ [0]] := by
    rw [h2]; simp only [sent, h79, ht]; rw [Stub.response_buffer_eq]
  refine ⟨hs1, ?_, hs2, ?_, ?_, by decide⟩
  · rw [hs1]; decide
  · rw [hs2]; decide
  · rw [hs1]; decide

/-! ## Startup failures -/

/-- Echo server: every return of `-1` after the listening socket was created
comes right after the one close of that socket. -/
theorem Echo.startup_failure_closes_listen_socket (e : Env)
    (hsock : e.socket_ret ≠ -1) (hret : (Echo.main e).ret = some (-1)) :
    closed_count (Echo.main e).trace = 1
    ∧ (Echo.main e).trace.getLast? = some (Event.close e.socket_ret) := by
  unfold Echo.main at hret ⊢
  simp only [Echo.INVALID_SOCKET] at hret ⊢
  rw [if_neg hsock] at hret ⊢
  split at hret
  · rename_i h
    rw [if_pos h]
    simp [closed_count, Event.is_close]
  · rename_i h
    rw [if_neg h]
    split at hret
    · rename_i h2
      rw [if_pos h2]
      simp [closed_count, Event.is_close]
    · rename_i h2
      rw [if_neg h2]
      split at hret
      · rename_i h3
        rw [if_pos h3]
        simp [closed_count, Event.is_close]
      · simp at hret

/-- HTTP stub: no return of `-1` is preceded by a close. -/
theorem Stub.startup_failure_never_closes (e : Env)
    (hret : (Stub.main e).ret = some (-1)) :
    closed_count (Stub.main e).trace = 0 := by
  unfold Stub.main at hret ⊢
  simp only [Stub.INVALID_SOCKET_VALUE] at hret ⊢
  split at hret
  · rename_i h
    rw [if_pos h]
    simp [closed_count, Event.is_close]
  · rename_i h
    rw [if_neg h]
    split at hret
    · rename_i h2
      rw [if_pos h2]
      simp [closed_count, Event.is_close]
    · rename_i h2
      rw [if_neg h2]
      split at hret
      · rename_i h3
        rw [if_pos h3]
        simp [closed_count, Event.is_close]
      · simp at hret

/-- C6, evaluation at the failing inputs. HTTP stub: when `bind` fails, and
when `listen` fails, `main` returns `-1` after the failure message without any
call of `CLOSE_SOCKET`, the listening socket 3 is left open; the echo server
closes it on the same outcomes. -/
theorem Stub.startup_failure_leaves_listen_socket_open :
    Stub.main bind_failure_env =
      ⟨[Event.socket 3, Event.inet_addr "127.0.0.1" 0x0100007F,
        Event.bind 3 8080 (-1), Event.printf "bind failed\n"], some (-1)⟩
    ∧ closed_count (Stub.main bind_failure_env).trace = 0
    ∧ Stub.main listen_failure_env =
      ⟨[Event.socket 3, Event.inet_addr "127.0.0.1" 0x0100007F,
        Event.bind 3 8080 0, Event.listen 3 32 (-1),
        Event.printf "listen failed\n"], some (-1)⟩
    ∧ closed_count (Stub.main listen_failure_env).trace = 0
    ∧ Echo.main bind_failure_env =
      ⟨[Event.socket 3, Event.setsockopt 3, Event.inet_pton "127.0.0.1" 1,
        Event.bind 3 8080 (-1), Event.close 3], some (-1)⟩
    ∧ Echo.main listen_failure_env =
      ⟨[Event.socket 3, Event.setsockopt 3, Event.inet_pton "127.0.0.1" 1,
        Event.bind 3 8080 0, Event.listen 3 32 (-1), Event.close 3], some (-1)⟩ := by
  decide

/-- C7. In both servers startup errors are fatal. The conversion of the literal
address "127.0.0.1" by `inet_addr` cannot report a failure, which is the
hypothesis. Then, in the echo server and in the HTTP stub: if `socket`, the
address conversion, `bind` or `listen` fails, `main` returns `-1` and `accept`
is never called; when none of them fails, `main` enters its loop after exactly
the startup calls, in the order socket, address conversion, bind, listen with
backlog 32; so a call of `accept` in the trace means that all these steps
succeeded. -/
theorem startup_failures_are_fatal (e : Env) (haddr : e.inet_addr_ret ≠ INADDR_NONE) :
    ((Echo.startup_step_failed e →
        (Echo.main e).ret = some (-1) ∧ ∀ ev ∈ (Echo.main e).trace, ev.is_accept = false)
      ∧ (¬ Echo.startup_step_failed e →
        Echo.main e =
          ⟨[Event.socket e.socket_ret, Event.setsockopt e.socket_ret,
            Event.inet_pton "127.0.0.1" 1,
            Event.bind e.socket_ret 8080 e.bind_ret,
            Event.listen e.socket_ret 32 e.listen_ret]
            ++ Echo.accept_loop e.socket_ret e.conns, none⟩)
      ∧ ((∃ ev ∈ (Echo.main e).trace, ev.is_accept = true) → ¬ Echo.startup_step_failed e))
    ∧ ((Stub.startup_step_failed e →
        (Stub.main e).ret = some (-1) ∧ ∀ ev ∈ (Stub.main e).trace, ev.is_accept = false)
      ∧ (¬ Stub.startup_step_failed e →
        Stub.main e =
          ⟨[Event.socket e.socket_ret,
            Event.inet_addr "127.0.0.1" e.inet_addr_ret,
            Event.bind e.socket_ret 8080 0,
            Event.listen e.socket_ret 32 0]
            ++ Stub.accept_loop e.socket_ret e.conns, none⟩)
      ∧ ((∃ ev ∈ (Stub.main e).trace, ev.is_accept = true) → ¬ Stub.startup_step_failed e)) := by
  have hE : Echo.startup_step_failed e →
      (Echo.main e).ret = some (-1) ∧ ∀ ev ∈ (Echo.main e).trace, ev.is_accept = false := by
    intro hf
    unfold Echo.startup_step_failed at hf
    unfold Echo.main
    simp only [Echo.INVALID_SOCKET]
    by_cases h1 : e.socket_ret = -1
    · simp [h1, Event.is_accept]
    · by_cases h2 : e.inet_pton_ret ≠ 1
      · rw [if_neg h1, if_pos h2]
        simp [Event.is_accept]
      · by_cases h3 : e.bind_ret < 0
        · rw [if_neg h1, if_neg h2, if_pos h3]
          simp [Event.is_accept]
        · have h4 : e.listen_ret < 0 := by
            rcases hf with h | h | h | h
            · exact absurd h h1
            · exact absurd h h2
            · exact absurd h h3
            · exact h
          rw [if_neg h1, if_neg h2, if_neg h3, if_pos h4]
          simp [Event.is_accept]
  have hS : Stub.startup_step_failed e →
      (Stub.main e).ret = some (-1) ∧ ∀ ev ∈ (Stub.main e).trace, ev.is_accept = false := by
    intro hf
    unfold Stub.startup_step_failed at hf
    unfold Stub.main
    simp only [Stub.INVALID_SOCKET_VALUE]
    by_cases h1 : e.socket_ret = -1
    · simp [h1, Event.is_accept]
    · by_cases h3 : e.bind_ret ≠ 0
      · rw [if_neg h1, if_pos h3]
        simp [Event.is_accept]
      · have h4 : e.listen_ret ≠ 0 := by
          rcases hf with h | h | h | h
          · exact absurd h h1
          · exact absurd h haddr
          · exact absurd h h3
          · exact h
        rw [if_neg h1, if_neg h3, if_pos h4]
        simp [Event.is_accept]
  refine ⟨⟨hE, ?_, ?_⟩, ⟨hS, ?_, ?_⟩⟩
  · intro hn
    unfold Echo.startup_step_failed at hn
    have h1 : e.socket_ret ≠ -1 := fun h => hn (Or.inl h)
    have h2 : e.inet_pton_ret = 1 := by
      by_contra h
      exact hn (Or.inr (Or.inl h))
    have h3 : 0 ≤ e.bind_ret := by
      by_contra h
      exact hn (Or.inr (Or.inr (Or.inl (by omega))))
    have h4 : 0 ≤ e.listen_ret := by
      by_contra h
      exact hn (Or.inr (Or.inr (Or.inr (by omega))))
    rw [Echo.echo_main_of_startup_ok e h1 h2 h3 h4]
    simp [Echo.startup_calls, h2]
  · rintro ⟨ev, hev, hacc⟩ hf
    rw [(hE hf).2 ev hev] at hacc
    exact Bool.noConfusion hacc
  · intro hn
    unfold Stub.startup_step_failed at hn
    have h1 : e.socket_ret ≠ -1 := fun h => hn (Or.inl h)
    have h3 : e.bind_ret = 0 := by
      by_contra h
      exact hn (Or.inr (Or.inr (Or.inl h)))
    have h4 : e.listen_ret = 0 := by
      by_contra h
      exact hn (Or.inr (Or.inr (Or.inr h)))
    rw [Stub.stub_main_of_startup_ok e h1 h3 h4]
    simp [Stub.startup_calls, h3, h4]
  · rintro ⟨ev, hev, hacc⟩ hf
    rw [(hS hf).2 ev hev] at hacc
    exact Bool.noConfusion hacc

/-- Witness for C7: `bind` fails in both servers, with the address converted. -/
theorem startup_failures_are_fatal_witness :
    bind_failure_env.inet_addr_ret ≠ INADDR_NONE
    ∧ ((Echo.main bind_failure_env).ret = some (-1)
        ∧ ∀ ev ∈ (Echo.main bind_failure_env).trace, ev.is_accept = false)
    ∧ ((Stub.main bind_failure_env).ret = some (-1)
        ∧ ∀ ev ∈ (Stub.main bind_failure_env).trace, ev.is_accept = false) :=
  ⟨by decide,
   (startup_failures_are_fatal bind_failure_env (by decide)).1.1
     (Or.inr (Or.inr (Or.inl (by decide)))),
   (startup_failures_are_fatal bind_failure_env (by decide)).2.1
     (Or.inr (Or.inr (Or.inl (by decide))))⟩
